import Mathlib

/-!
Shallow embedding of the branch-based subscription pricing module
(`src/utils/branchBasedPricing.js`) and of the brand-metrics aggregation
in `src/pages/BrandOverview.jsx`, with theorems settling the spec claims.

Conventions: JS numbers that the code uses as integer branch counts are
modelled as `ℤ`; monetary amounts as `ℚ` (all arithmetic in the module is
exact decimal arithmetic, representable in `ℚ`).  A JS division whose
divisor can be zero is modelled by `jsDiv`, which returns the IEEE-style
outcome (`±Infinity` on sign/0, `NaN` on 0/0) as an explicit constructor.
-/

namespace NavaPricing

/-- Result of a JavaScript `/` whose divisor may be zero: a finite rational,
`Infinity`, `-Infinity` or `NaN`. -/
inductive JSDivResult where
  | fin (q : ℚ)
  | posInf
  | negInf
  | nan
deriving DecidableEq, Repr

/-- JavaScript division `a / b` on (exact) numbers: finite quotient when
`b ≠ 0`, otherwise `±Infinity` by the sign of `a`, and `NaN` for `0 / 0`. -/
def jsDiv (a b : ℚ) : JSDivResult :=
  if b ≠ 0 then .fin (a / b)
  else if 0 < a then .posInf
  else if a < 0 then .negInf
  else .nan

/-- The `PRICING_CONFIG` constant from `branchBasedPricing.js`. -/
structure PricingConfig where
  currency : String
  basePriceMonthly : ℚ
  additionalBranchPrice : ℚ
  minBranches : ℤ
  maxBranches : ℤ
deriving Repr

def PRICING_CONFIG : PricingConfig :=
  { currency := "SAR"
  , basePriceMonthly := 299      -- Includes first branch
  , additionalBranchPrice := 99  -- Per additional branch per month
  , minBranches := 1
  , maxBranches := -1            -- Unlimited
  }

/-- Embeds `calculateMonthlyPrice(branchCount)`. -/
def calculateMonthlyPrice (branchCount : ℤ) : ℚ :=
  if branchCount < PRICING_CONFIG.minBranches then
    PRICING_CONFIG.basePriceMonthly
  else
    let additionalBranches : ℤ := max 0 (branchCount - 1)
    PRICING_CONFIG.basePriceMonthly + (additionalBranches * PRICING_CONFIG.additionalBranchPrice)

/-- Embeds `calculateYearlyPrice(branchCount, discountPercent = 17)`. -/
def calculateYearlyPrice (branchCount : ℤ) (discountPercent : ℚ := 17) : ℚ :=
  let monthlyPrice := calculateMonthlyPrice branchCount
  let yearlyPrice := monthlyPrice * 12
  let discountAmount := (yearlyPrice * discountPercent) / 100
  yearlyPrice - discountAmount

/-- The `monthly` sub-object of the pricing breakdown. -/
structure MonthlyBreakdown where
  total : ℚ
  perBranch : JSDivResult
  currency : String
deriving DecidableEq, Repr

/-- The `yearly` sub-object of the pricing breakdown. -/
structure YearlyBreakdown where
  total : ℚ
  savings : ℚ
  savingsPercent : ℚ
  perMonth : ℚ
  currency : String
deriving DecidableEq, Repr

/-- The object returned by `getPricingBreakdown`. -/
structure PricingBreakdown where
  branchCount : ℤ
  basePrice : ℚ
  additionalBranches : ℤ
  additionalBranchCost : ℚ
  monthly : MonthlyBreakdown
  yearly : YearlyBreakdown
deriving DecidableEq, Repr

/-- Embeds `getPricingBreakdown(branchCount)`.  The division `monthlyTotal / branchCount`
is written in the source on the raw `branchCount`, so it goes through `jsDiv`. -/
def getPricingBreakdown (branchCount : ℤ) : PricingBreakdown :=
  let additionalBranches : ℤ := max 0 (branchCount - 1)
  let monthlyTotal := calculateMonthlyPrice branchCount
  let yearlyTotal := calculateYearlyPrice branchCount
  let yearlySavings := (monthlyTotal * 12) - yearlyTotal
  { branchCount := branchCount
  , basePrice := PRICING_CONFIG.basePriceMonthly
  , additionalBranches := additionalBranches
  , additionalBranchCost := (additionalBranches : ℚ) * PRICING_CONFIG.additionalBranchPrice
  , monthly :=
    { total := monthlyTotal
    , perBranch := jsDiv monthlyTotal (branchCount : ℚ)
    , currency := PRICING_CONFIG.currency }
  , yearly :=
    { total := yearlyTotal
    , savings := yearlySavings
    , savingsPercent := 17
    , perMonth := yearlyTotal / 12
    , currency := PRICING_CONFIG.currency } }

/-- The object returned by `calculatePriceDifference`. -/
structure PriceDifference where
  currentPrice : ℚ
  newPrice : ℚ
  difference : ℚ
  branchDifference : ℤ
  isIncrease : Bool
  isDecrease : Bool
  percentChange : ℚ
deriving DecidableEq, Repr

/-- Embeds `calculatePriceDifference(currentBranches, newBranches)`. -/
def calculatePriceDifference (currentBranches newBranches : ℤ) : PriceDifference :=
  let currentPrice := calculateMonthlyPrice currentBranches
  let newPrice := calculateMonthlyPrice newBranches
  let difference := newPrice - currentPrice
  let branchDifference := newBranches - currentBranches
  { currentPrice := currentPrice
  , newPrice := newPrice
  , difference := difference
  , branchDifference := branchDifference
  , isIncrease := decide (difference > 0)
  , isDecrease := decide (difference < 0)
  , percentChange := if currentPrice > 0 then (difference / currentPrice) * 100 else 0 }

/-- The object returned by `validateBranchCount`. -/
structure ValidationResult where
  isValid : Bool
  branchCount : ℤ
  minBranches : ℤ
  maxBranches : ℤ
  error : Option String
deriving DecidableEq, Repr

/-- Embeds `validateBranchCount(branchCount)`. -/
def validateBranchCount (branchCount : ℤ) : ValidationResult :=
  let isValid := decide (branchCount ≥ PRICING_CONFIG.minBranches) &&
                 (decide (PRICING_CONFIG.maxBranches = -1) ||
                  decide (branchCount ≤ PRICING_CONFIG.maxBranches))
  { isValid := isValid
  , branchCount := branchCount
  , minBranches := PRICING_CONFIG.minBranches
  , maxBranches := PRICING_CONFIG.maxBranches
  , error := if !isValid then
               some ("Branch count must be at least " ++ toString PRICING_CONFIG.minBranches)
             else none }

end NavaPricing

namespace NavaBrand

/-- A branch row as used by `BrandOverview.jsx` (`branch.id`, `branch.branch_name`,
`branch.branch_location`). -/
structure Branch where
  id : ℕ
  branch_name : String
  branch_location : String
deriving DecidableEq, Repr

/-- The statistics object returned by `api.branches.getStatistics` for one branch. -/
structure BranchStatistics where
  revenue : ℚ
  orders : ℚ
  growth : ℚ
deriving DecidableEq, Repr

/-- One entry of `branchPerformanceData`. -/
structure BranchPerformance where
  id : ℕ
  name : String
  location : String
  revenue : ℚ
  orders : ℚ
  averageOrder : ℚ
  growth : ℚ
deriving DecidableEq, Repr

/-- The `brandMetrics` state object. -/
structure BrandMetrics where
  totalRevenue : ℚ
  totalOrders : ℚ
  averageOrderValue : ℚ
  growthRate : ℚ
deriving DecidableEq, Repr

/-- The row pushed onto `branchPerformanceData` for a branch whose metrics fetch
succeeded. -/
def toPerformanceRow (branch : Branch) (metrics : BranchStatistics) : BranchPerformance :=
  { id := branch.id
  , name := branch.branch_name
  , location := branch.branch_location
  , revenue := metrics.revenue
  , orders := metrics.orders
  , averageOrder := if 0 < metrics.orders then metrics.revenue / metrics.orders else 0
  , growth := metrics.growth }

/-- The `allBranchMetrics.forEach` loop: a branch whose fetch failed (its promise
was resolved to `null` by the per-branch `.catch`) contributes nothing; a branch
with metrics contributes one performance row. -/
def collectPerformance : List (Branch × Option BranchStatistics) → List BranchPerformance
  | [] => []
  | (branch, some metrics) :: rest => toPerformanceRow branch metrics :: collectPerformance rest
  | (_, none) :: rest => collectPerformance rest

/-- Stable insertion of a row into a list kept in descending revenue order. -/
def insertByRevenueDesc (x : BranchPerformance) :
    List BranchPerformance → List BranchPerformance
  | [] => [x]
  | y :: ys => if y.revenue ≤ x.revenue then x :: y :: ys else y :: insertByRevenueDesc x ys

/-- Embeds `branchPerformanceData.sort((a, b) => b.revenue - a.revenue)`: the ECMAScript
sort is stable, so it is modelled as a stable sort, descending on `revenue`. -/
def sortByRevenueDesc : List BranchPerformance → List BranchPerformance
  | [] => []
  | x :: xs => insertByRevenueDesc x (sortByRevenueDesc xs)

/-- The aggregation performed by `fetchBrandMetrics` once all per-branch promises
have settled: totals over the successful branches, the derived averages, and the
performance table sorted by revenue. -/
def fetchBrandMetricsAggregate (pairs : List (Branch × Option BranchStatistics)) :
    BrandMetrics × List BranchPerformance :=
  let rows := collectPerformance pairs
  let totalRevenue := (rows.map (fun r => r.revenue)).sum
  let totalOrders := (rows.map (fun r => r.orders)).sum
  let branchPerformanceData := sortByRevenueDesc rows
  ( { totalRevenue := totalRevenue
    , totalOrders := totalOrders
    , averageOrderValue := if 0 < totalOrders then totalRevenue / totalOrders else 0
    , growthRate :=
        if 0 < branchPerformanceData.length then
          ((branchPerformanceData.map (fun r => r.growth)).sum)
            / (branchPerformanceData.length : ℚ)
        else 0 }
  , branchPerformanceData )

end NavaBrand

open NavaPricing NavaBrand

/-- For a branch count of at least one, the monthly price is the base price plus
99 per additional branch. -/
theorem monthlyPrice_of_ge_one (b : ℤ) (h : 1 ≤ b) :
    calculateMonthlyPrice b = 299 + ((b - 1 : ℤ) : ℚ) * 99 := by
  unfold calculateMonthlyPrice PRICING_CONFIG
  rw [if_neg (by simp; omega)]
  rw [max_eq_right (by omega : (0:ℤ) ≤ b - 1)]

/-- Branch counts below the minimum are clamped: the monthly price is the base. -/
theorem monthlyPrice_of_lt_one (b : ℤ) (h : b < 1) :
    calculateMonthlyPrice b = 299 := by
  unfold calculateMonthlyPrice PRICING_CONFIG
  rw [if_pos (by exact_mod_cast h)]

/-- The monthly price never drops below the 299 base. -/
theorem monthlyPrice_ge (b : ℤ) : 299 ≤ calculateMonthlyPrice b := by
  rcases lt_or_le b 1 with h | h
  · rw [monthlyPrice_of_lt_one b h]
  · rw [monthlyPrice_of_ge_one b h]
    have h2 : (0:ℚ) ≤ ((b - 1 : ℤ) : ℚ) := by exact_mod_cast (by omega : (0:ℤ) ≤ b - 1)
    nlinarith

/-- Closed form of the yearly price: twelve monthly payments scaled by the
discount factor. -/
theorem yearly_eq (b : ℤ) (d : ℚ) :
    calculateYearlyPrice b d = calculateMonthlyPrice b * 12 * (1 - d / 100) := by
  unfold calculateYearlyPrice
  ring

/-- At a branch count of zero the per-branch division `monthlyTotal / branchCount`
divides 299 by zero and yields `Infinity`. -/
theorem perBranch_zero_eq :
    (getPricingBreakdown 0).monthly.perBranch = JSDivResult.posInf := by
  norm_num [getPricingBreakdown, jsDiv, calculateMonthlyPrice, PRICING_CONFIG]

/-- Claim C1 counterexample: at `branchCount = 0`, `getPricingBreakdown` does not
return a per-branch price of 0 (nor any finite value); the unguarded division
`monthlyTotal / branchCount` yields `Infinity`. -/
theorem C1_counterexample :
    (getPricingBreakdown 0).monthly.perBranch ≠ JSDivResult.fin 0 ∧
    (getPricingBreakdown 0).monthly.perBranch = JSDivResult.posInf :=
  ⟨by rw [perBranch_zero_eq]; decide, perBranch_zero_eq⟩

/-- Claim C1 (amended): `perBranch` is `monthlyPrice` divided by the raw, unclamped
`branchCount`; for every `branchCount ≥ 1` that quotient is finite and equals
`calculateMonthlyPrice branchCount / branchCount`, while at `branchCount = 0` the
division is by zero and evaluates to `Infinity`, not 0. -/
theorem C1_perBranch_amended (b : ℤ) (h : 1 ≤ b) :
    (getPricingBreakdown b).monthly.perBranch
      = JSDivResult.fin (calculateMonthlyPrice b / (b : ℚ)) ∧
    (getPricingBreakdown 0).monthly.perBranch = JSDivResult.posInf := by
  refine ⟨?_, perBranch_zero_eq⟩
  have hb : ((b : ℚ)) ≠ 0 := by
    exact_mod_cast (by omega : (b : ℤ) ≠ 0)
  simp [getPricingBreakdown, jsDiv, hb]

/-- Witness for C1 at the concrete branch count 3. -/
theorem C1_witness :
    (getPricingBreakdown 3).monthly.perBranch
      = JSDivResult.fin (calculateMonthlyPrice 3 / ((3 : ℤ) : ℚ)) ∧
    (getPricingBreakdown 0).monthly.perBranch = JSDivResult.posInf :=
  C1_perBranch_amended 3 (by norm_num)

/-- Claim C2: for every integer `b ≥ 1`,
`calculateMonthlyPrice b = basePriceMonthly + (b-1) * additionalBranchPrice` and the
result is at least the base price; and every `b < minBranches` is clamped up, giving
the same price as `minBranches` itself. -/
theorem C2_monthlyPrice (b : ℤ) :
    (1 ≤ b → calculateMonthlyPrice b
        = PRICING_CONFIG.basePriceMonthly
          + ((b - 1 : ℤ) : ℚ) * PRICING_CONFIG.additionalBranchPrice ∧
      PRICING_CONFIG.basePriceMonthly ≤ calculateMonthlyPrice b) ∧
    (b < PRICING_CONFIG.minBranches →
      calculateMonthlyPrice b = calculateMonthlyPrice PRICING_CONFIG.minBranches) := by
  constructor
  · intro h
    refine ⟨?_, ?_⟩
    · rw [monthlyPrice_of_ge_one b h]; rfl
    · calc PRICING_CONFIG.basePriceMonthly = 299 := rfl
        _ ≤ calculateMonthlyPrice b := monthlyPrice_ge b
  · intro h
    have h1 : b < 1 := h
    rw [monthlyPrice_of_lt_one b h1]
    show (299 : ℚ) = calculateMonthlyPrice 1
    rw [monthlyPrice_of_ge_one 1 le_rfl]; norm_num

/-- Witness for C2 at the concrete branch counts 2 and 0. -/
theorem C2_witness :
    (calculateMonthlyPrice 2
        = PRICING_CONFIG.basePriceMonthly
          + ((2 - 1 : ℤ) : ℚ) * PRICING_CONFIG.additionalBranchPrice ∧
      PRICING_CONFIG.basePriceMonthly ≤ calculateMonthlyPrice 2) ∧
    calculateMonthlyPrice 0 = calculateMonthlyPrice PRICING_CONFIG.minBranches :=
  ⟨(C2_monthlyPrice 2).1 (by norm_num), (C2_monthlyPrice 0).2 (by decide)⟩

/-- Claim C3: for every branch count and every discount in `[0, 100]`,
`calculateYearlyPrice b d = calculateMonthlyPrice b * 12 * (1 - d/100)`, and the
configured default discount of 17 is used when none is passed. -/
theorem C3_yearlyPrice (b : ℤ) (d : ℚ) (_h0 : 0 ≤ d) (_h1 : d ≤ 100) :
    calculateYearlyPrice b d = calculateMonthlyPrice b * 12 * (1 - d / 100) ∧
    calculateYearlyPrice b = calculateYearlyPrice b 17 :=
  ⟨yearly_eq b d, rfl⟩

/-- Witness for C3 at branch count 5 and discount 17. -/
theorem C3_witness :
    calculateYearlyPrice 5 17 = calculateMonthlyPrice 5 * 12 * (1 - 17 / 100) ∧
    calculateYearlyPrice 5 = calculateYearlyPrice 5 17 :=
  C3_yearlyPrice 5 17 (by norm_num) (by norm_num)

/-- Claim C4 counterexample: with the configured base 299, per-branch 99 and 17%
discount, `calculateYearlyPrice 5` is 6922.2, not the 6920.20 the claim states. -/
theorem C4_counterexample :
    calculateYearlyPrice 5 = 6922.2 ∧ (6922.2 : ℚ) ≠ 6920.20 := by
  constructor
  · norm_num [calculateYearlyPrice, calculateMonthlyPrice, PRICING_CONFIG]
  · norm_num

/-- Claim C4 (amended): monthly(1) = 299, yearly(1) = 2978.04, monthly(5) = 695,
yearly(5) = 6922.20 (the claimed 6920.20 is an arithmetic slip), and
`calculatePriceDifference 1 5` has difference 396, branch difference 4, is an
increase, and a percent change within 0.01 of 132.44. -/
theorem C4_amended :
    calculateMonthlyPrice 1 = 299 ∧ calculateYearlyPrice 1 = 2978.04 ∧
    calculateMonthlyPrice 5 = 695 ∧ calculateYearlyPrice 5 = 6922.2 ∧
    (calculatePriceDifference 1 5).difference = 396 ∧
    (calculatePriceDifference 1 5).branchDifference = 4 ∧
    (calculatePriceDifference 1 5).isIncrease = true ∧
    |(calculatePriceDifference 1 5).percentChange - 132.44| < 1 / 100 := by
  refine ⟨?_, ?_, ?_, ?_, ?_, ?_, ?_, ?_⟩ <;>
    norm_num [calculatePriceDifference, calculateYearlyPrice, calculateMonthlyPrice,
      PRICING_CONFIG, abs_lt]

/-- Claim C5 counterexample: `calculatePriceDifference 0 2` has current price 299
(the clamped monthly price of 0 branches), not 0, and its percent change is the
nonzero 9900/299 rather than the claimed 0. -/
theorem C5_counterexample :
    (calculatePriceDifference 0 2).currentPrice = 299 ∧
    (calculatePriceDifference 0 2).currentPrice ≠ 0 ∧
    (calculatePriceDifference 0 2).percentChange ≠ 0 := by
  refine ⟨?_, ?_, ?_⟩ <;>
    norm_num [calculatePriceDifference, calculateMonthlyPrice, PRICING_CONFIG]

/-- Claim C5 (amended): `percentChange` is `difference / currentPrice * 100` whenever
`currentPrice > 0`, and `currentPrice` is in fact always positive (the monthly price
is clamped to at least 299), so the `currentPrice = 0` fallback branch is never
taken; in particular `calculatePriceDifference 0 b` has current price 299, not 0. -/
theorem C5_amended (a b : ℤ) :
    (calculatePriceDifference a b).percentChange
      = ((calculatePriceDifference a b).difference
          / (calculatePriceDifference a b).currentPrice) * 100 ∧
    0 < (calculatePriceDifference a b).currentPrice ∧
    (calculatePriceDifference 0 b).currentPrice = 299 := by
  have hpos : (0:ℚ) < calculateMonthlyPrice a := lt_of_lt_of_le (by norm_num) (monthlyPrice_ge a)
  refine ⟨?_, ?_, ?_⟩
  · simp [calculatePriceDifference, hpos]
  · simpa [calculatePriceDifference] using hpos
  · simp [calculatePriceDifference, monthlyPrice_of_lt_one 0 (by norm_num)]

/-- Claim C8: `validateBranchCount` returns a result value whose `isValid` is false
exactly when the branch count is below `minBranches`, whose `error` is a string
exactly when invalid, with `validate 0` invalid carrying an error and `validate 1`
valid with a null error. -/
theorem C8_validateBranchCount (b : ℤ) :
    ((validateBranchCount b).isValid = false ↔ b < PRICING_CONFIG.minBranches) ∧
    ((validateBranchCount b).error.isSome = !(validateBranchCount b).isValid) ∧
    (validateBranchCount 0).isValid = false ∧
    (validateBranchCount 0).error ≠ none ∧
    (validateBranchCount 1).isValid = true ∧
    (validateBranchCount 1).error = none := by
  refine ⟨?_, ?_, by decide, by decide, by decide, by decide⟩
  · simp [validateBranchCount, PRICING_CONFIG]
  · by_cases h : (1:ℤ) ≤ b <;> simp [validateBranchCount, PRICING_CONFIG, h]

/-- Witness for C8 at the concrete branch count 7. -/
theorem C8_witness :
    ((validateBranchCount 7).isValid = false ↔ (7:ℤ) < PRICING_CONFIG.minBranches) ∧
    ((validateBranchCount 7).error.isSome = !(validateBranchCount 7).isValid) ∧
    (validateBranchCount 0).isValid = false ∧
    (validateBranchCount 0).error ≠ none ∧
    (validateBranchCount 1).isValid = true ∧
    (validateBranchCount 1).error = none :=
  C8_validateBranchCount 7

/-- Claim C9: `calculateYearlyPrice` does not clamp its discount: a discount above
100 drives the yearly price strictly negative, and a negative discount drives it
strictly above twelve months of the monthly price. -/
theorem C9_discount_unclamped (b : ℤ) (d : ℚ) :
    (100 < d → calculateYearlyPrice b d < 0) ∧
    (d < 0 → calculateMonthlyPrice b * 12 < calculateYearlyPrice b d) := by
  have hm : (299:ℚ) ≤ calculateMonthlyPrice b := monthlyPrice_ge b
  rw [yearly_eq]
  constructor
  · intro hd
    have h1 : 1 - d / 100 < 0 := by linarith
    nlinarith
  · intro hd
    have h1 : (1:ℚ) < 1 - d / 100 := by linarith
    nlinarith

/-- Witness for C9 at branch count 1 with discounts 200 and -10. -/
theorem C9_witness :
    calculateYearlyPrice 1 200 < 0 ∧
    calculateMonthlyPrice 1 * 12 < calculateYearlyPrice 1 (-10) :=
  ⟨(C9_discount_unclamped 1 200).1 (by norm_num),
   (C9_discount_unclamped 1 (-10)).2 (by norm_num)⟩

/-- Claim C10: `calculatePriceDifference` satisfies
`difference = newPrice - currentPrice`, `branchDifference = newBranches -
currentBranches`, `isIncrease` and `isDecrease` are never both true, exactly one of
increase, decrease or zero difference holds, and the difference of a count with
itself is 0 with both flags false. -/
theorem C10_difference_invariants (a b : ℤ) :
    (calculatePriceDifference a b).difference
      = (calculatePriceDifference a b).newPrice - (calculatePriceDifference a b).currentPrice ∧
    (calculatePriceDifference a b).branchDifference = b - a ∧
    ¬((calculatePriceDifference a b).isIncrease = true ∧
      (calculatePriceDifference a b).isDecrease = true) ∧
    ((calculatePriceDifference a b).isIncrease = true ∧
       (calculatePriceDifference a b).isDecrease = false ∧
       (calculatePriceDifference a b).difference ≠ 0 ∨
     (calculatePriceDifference a b).isDecrease = true ∧
       (calculatePriceDifference a b).isIncrease = false ∧
       (calculatePriceDifference a b).difference ≠ 0 ∨
     (calculatePriceDifference a b).difference = 0 ∧
       (calculatePriceDifference a b).isIncrease = false ∧
       (calculatePriceDifference a b).isDecrease = false) ∧
    (calculatePriceDifference a a).difference = 0 ∧
    (calculatePriceDifference a a).isIncrease = false ∧
    (calculatePriceDifference a a).isDecrease = false := by
  have hInc : ∀ x y : ℤ, (calculatePriceDifference x y).isIncrease
      = decide (0 < calculateMonthlyPrice y - calculateMonthlyPrice x) := fun _ _ => rfl
  have hDec : ∀ x y : ℤ, (calculatePriceDifference x y).isDecrease
      = decide (calculateMonthlyPrice y - calculateMonthlyPrice x < 0) := fun _ _ => rfl
  have hDiff : ∀ x y : ℤ, (calculatePriceDifference x y).difference
      = calculateMonthlyPrice y - calculateMonthlyPrice x := fun _ _ => rfl
  refine ⟨rfl, rfl, ?_, ?_, by rw [hDiff]; ring, ?_, ?_⟩
  · rintro ⟨h1, h2⟩
    rw [hInc] at h1; rw [hDec] at h2
    have g1 := of_decide_eq_true h1
    have g2 := of_decide_eq_true h2
    linarith
  · rcases lt_trichotomy (calculateMonthlyPrice b - calculateMonthlyPrice a) 0 with h | h | h
    · refine Or.inr (Or.inl ⟨?_, ?_, ?_⟩)
      · rw [hDec]; exact decide_eq_true h
      · rw [hInc]; exact decide_eq_false (by linarith)
      · rw [hDiff]; exact ne_of_lt h
    · refine Or.inr (Or.inr ⟨?_, ?_, ?_⟩)
      · rw [hDiff]; exact h
      · rw [hInc]; exact decide_eq_false (by rw [h]; exact lt_irrefl 0)
      · rw [hDec]; exact decide_eq_false (by rw [h]; exact lt_irrefl 0)
    · refine Or.inl ⟨?_, ?_, ?_⟩
      · rw [hInc]; exact decide_eq_true h
      · rw [hDec]; exact decide_eq_false (by linarith)
      · rw [hDiff]; exact (ne_of_lt h).symm
  · rw [hInc]; exact decide_eq_false (by simp)
  · rw [hDec]; exact decide_eq_false (by simp)

/-- Dropping the failed fetches from the input leaves the collected performance
rows unchanged: failed branches contribute nothing. -/
theorem collectPerformance_filter (pairs : List (Branch × Option BranchStatistics)) :
    collectPerformance (pairs.filter (fun p => p.2.isSome)) = collectPerformance pairs := by
  induction pairs with
  | nil => rfl
  | cons head rest ih =>
    obtain ⟨branch, metrics⟩ := head
    cases metrics with
    | none => simpa [collectPerformance, List.filter] using ih
    | some m => simpa [collectPerformance, List.filter] using ih

/-- One performance row per branch whose metrics fetch succeeded. -/
theorem length_collectPerformance (pairs : List (Branch × Option BranchStatistics)) :
    (collectPerformance pairs).length = pairs.countP (fun p => p.2.isSome) := by
  induction pairs with
  | nil => rfl
  | cons head rest ih =>
    obtain ⟨branch, metrics⟩ := head
    cases metrics with
    | none => simpa [collectPerformance, List.countP_cons] using ih
    | some m => simpa [collectPerformance, List.countP_cons] using ih

/-- Insertion only repositions the inserted row. -/
theorem insertByRevenueDesc_perm (x : BranchPerformance) (l : List BranchPerformance) :
    (insertByRevenueDesc x l).Perm (x :: l) := by
  induction l with
  | nil => exact List.Perm.refl _
  | cons y ys ih =>
    rw [insertByRevenueDesc]
    by_cases hxy : y.revenue ≤ x.revenue
    · rw [if_pos hxy]
    · rw [if_neg hxy]
      exact (ih.cons y).trans (List.Perm.swap x y ys)

/-- The revenue sort is a permutation. -/
theorem sortByRevenueDesc_perm (l : List BranchPerformance) :
    (sortByRevenueDesc l).Perm l := by
  induction l with
  | nil => exact List.Perm.refl _
  | cons x xs ih =>
    exact (insertByRevenueDesc_perm x (sortByRevenueDesc xs)).trans (ih.cons x)

/-- Insertion preserves descending revenue order. -/
theorem insertByRevenueDesc_sorted (x : BranchPerformance) (l : List BranchPerformance)
    (h : List.Sorted (fun p q => q.revenue ≤ p.revenue) l) :
    List.Sorted (fun p q => q.revenue ≤ p.revenue) (insertByRevenueDesc x l) := by
  induction l with
  | nil => simp [insertByRevenueDesc]
  | cons y ys ih =>
    rw [insertByRevenueDesc]
    rw [List.sorted_cons] at h
    by_cases hxy : y.revenue ≤ x.revenue
    · rw [if_pos hxy, List.sorted_cons]
      refine ⟨?_, List.sorted_cons.mpr h⟩
      intro z hz
      rcases List.mem_cons.mp hz with rfl | hz'
      · exact hxy
      · exact le_trans (h.1 z hz') hxy
    · rw [if_neg hxy, List.sorted_cons]
      refine ⟨?_, ih h.2⟩
      intro z hz
      rcases List.mem_cons.mp ((insertByRevenueDesc_perm x ys).mem_iff.mp hz) with rfl | hz'
      · exact le_of_lt (not_le.mp hxy)
      · exact h.1 z hz'

/-- The revenue sort produces descending revenue order. -/
theorem sortByRevenueDesc_sorted (l : List BranchPerformance) :
    List.Sorted (fun p q => q.revenue ≤ p.revenue) (sortByRevenueDesc l) := by
  induction l with
  | nil => exact List.sorted_nil
  | cons x xs ih => exact insertByRevenueDesc_sorted x (sortByRevenueDesc xs) ih

/-- A row is inserted strictly before the rows of equal revenue already present,
which is exactly what stability of the whole sort needs. -/
theorem filter_insertByRevenueDesc (x : BranchPerformance) (l : List BranchPerformance)
    (v : ℚ) :
    (insertByRevenueDesc x l).filter (fun p => decide (p.revenue = v))
      = if x.revenue = v
        then x :: l.filter (fun p => decide (p.revenue = v))
        else l.filter (fun p => decide (p.revenue = v)) := by
  induction l with
  | nil =>
    by_cases hx : x.revenue = v <;> simp [insertByRevenueDesc, List.filter_cons, hx]
  | cons y ys ih =>
    rw [insertByRevenueDesc]
    by_cases hxy : y.revenue ≤ x.revenue
    · rw [if_pos hxy]
      by_cases hx : x.revenue = v <;> simp [List.filter_cons, hx]
    · rw [if_neg hxy]
      by_cases hx : x.revenue = v
      · have hyv : ¬ (y.revenue = v) := fun e => hxy (le_of_eq (e.trans hx.symm))
        simp [List.filter_cons, hx, hyv, ih]
      · by_cases hyv : y.revenue = v <;> simp [List.filter_cons, hx, hyv, ih]

/-- Stability: for each revenue value, the sort keeps the rows carrying it in
their original relative order. -/
theorem filter_sortByRevenueDesc (l : List BranchPerformance) (v : ℚ) :
    (sortByRevenueDesc l).filter (fun p => decide (p.revenue = v))
      = l.filter (fun p => decide (p.revenue = v)) := by
  induction l with
  | nil => rfl
  | cons x xs ih =>
    rw [sortByRevenueDesc, filter_insertByRevenueDesc]
    by_cases hx : x.revenue = v <;> simp [List.filter_cons, hx, ih]

/-- Claim C6: branches whose metrics fetch failed (resolved to `null` by the
per-branch catch) are excluded from the totals and the performance table without
aborting the aggregation, the partial result being what the successful branches
alone produce, and the performance table length counts the successful branches. -/
theorem C6_partial_aggregation (pairs : List (Branch × Option BranchStatistics)) :
    fetchBrandMetricsAggregate pairs
      = fetchBrandMetricsAggregate (pairs.filter (fun p => p.2.isSome)) ∧
    (fetchBrandMetricsAggregate pairs).2.length
      = pairs.countP (fun p => p.2.isSome) := by
  constructor
  · unfold fetchBrandMetricsAggregate
    rw [collectPerformance_filter]
  · show (sortByRevenueDesc (collectPerformance pairs)).length = _
    rw [(sortByRevenueDesc_perm (collectPerformance pairs)).length_eq,
      length_collectPerformance]

/-- Claim C7: the `branchPerformance` output is the collected rows sorted in
descending revenue order, a permutation of them, and stable: rows of equal revenue
keep their original relative order. -/
theorem C7_branchPerformance_sorted_stable (l : List BranchPerformance) :
    List.Sorted (fun p q => q.revenue ≤ p.revenue) (sortByRevenueDesc l) ∧
    (sortByRevenueDesc l).Perm l ∧
    (∀ v : ℚ, (sortByRevenueDesc l).filter (fun p => decide (p.revenue = v))
        = l.filter (fun p => decide (p.revenue = v))) ∧
    (∀ pairs : List (Branch × Option BranchStatistics),
      (fetchBrandMetricsAggregate pairs).2 = sortByRevenueDesc (collectPerformance pairs)) :=
  ⟨sortByRevenueDesc_sorted l, sortByRevenueDesc_perm l,
   fun v => filter_sortByRevenueDesc l v, fun _ => rfl⟩
